import Mathlib

/-!
Verification development for `src/ConversationalBrowserAgent.py`.

The file shallowly embeds the parts of the program the claims are about:
the `OpenRouterClient.analyze_intent` plan parser, the
`BrowserController.execute_action` step executor, and the
`ConversationalBrowserAgent.process_user_input` turn loop.

Modelling conventions:
* Python values produced by `json.loads` are modelled by the inductive
  `PyVal`; dictionary access (`d[k]`, `d.get(k)`) follows Python semantics,
  with a raised exception modelled as `Except.error`.
* External effects (the OpenRouter HTTP call, every Playwright operation)
  are oracles: the raw Reasoner reply is a `RawResponse` input, and a
  `BrowserSession` is a record of functions, one per Playwright primitive,
  each returning `Except String Unit` (`error e` models the primitive
  raising an exception whose `str(e)` is `e`).
* Wall-clock timestamps are not modelled (no claim mentions them).
* Durations (`delay`, Python floats) are modelled by `Rat`; every value the
  program ever builds is exact (the dataclass default `1.0`).
-/

namespace CBA

/-- Python values as produced by `json.loads` plus `None`
(the shapes flowing through `analyze_intent` and the turn loop). -/
inductive PyVal where
  | str (s : String)
  | num (q : Rat)
  | bool (b : Bool)
  | none
  | list (xs : List PyVal)
  | dict (kvs : List (String × PyVal))

/-- Python truthiness of a `PyVal` (`if v:`). -/
def PyVal.truthy : PyVal → Bool
  | .str s => s != ""
  | .num q => q != 0
  | .bool b => b
  | .none => false
  | .list xs => !xs.isEmpty
  | .dict kvs => !kvs.isEmpty

/-- Python `d[k]`: `KeyError` when the key is absent, `TypeError` when the
value is not a dict. -/
def PyVal.getItem (v : PyVal) (k : String) : Except String PyVal :=
  match v with
  | .dict kvs =>
    match kvs.lookup k with
    | some x => .ok x
    | Option.none => .error ("KeyError: " ++ k)
  | _ => .error "TypeError: value is not subscriptable"

/-- Python `d.get(k)` (no default, so an absent key is `None`-like `none`
here): `AttributeError` when the value is not a dict. -/
def PyVal.getOpt (v : PyVal) (k : String) : Except String (Option PyVal) :=
  match v with
  | .dict kvs => .ok (kvs.lookup k)
  | _ => .error "AttributeError: value has no attribute get"

/-- Coerce a `PyVal` known to be a string.  The source stores these values
untyped; a non-string here surfaces in Python as a `TypeError` at the first
string concatenation, which we raise at extraction (the difference is
observable only for turns that never concatenate, which no claim touches). -/
def PyVal.asStr : PyVal → Except String String
  | .str s => .ok s
  | _ => .error "TypeError: expected str"

/-- Python `d.get(k, "")` coerced to a string (used by the `BrowserAction`
construction at lines 428-434 of the source). -/
def PyVal.getStrD (v : PyVal) (k : String) : Except String String := do
  match ← v.getOpt k with
  | some x => x.asStr
  | Option.none => pure ""

/-- Boolean substring test, the model of Python `pat in s`
(the empty pattern is contained in every string, as in Python). -/
def strContainsB (s pat : String) : Bool :=
  s.toList.tails.any (fun t => pat.toList.isPrefixOf t)

/-- Python `s.lower()` (ASCII case folding suffices for the
literals the program compares against). -/
def pyLower (s : String) : String :=
  String.mk (s.toList.map Char.toLower)

/-- Python `l[-n:]`: the last `n` elements (all of them when fewer). -/
def lastN (n : Nat) (l : List α) : List α :=
  l.drop (l.length - n)

/-- Python `int(q)` on a non-negative float: truncation toward zero. -/
def pyInt (q : Rat) : Int :=
  q.num / (q.den : Int)

/-- `AgentState` (source lines 26-32). -/
inductive AgentState where
  | IDLE
  | THINKING
  | ACTING
  | WAITING_FOR_INPUT
  | COMPLETED
  | ERROR
deriving DecidableEq

/-- `BrowserAction` dataclass (source lines 34-42).  `delay` defaults to
`1.0` and is never passed at the construction site. -/
structure BrowserAction where
  action_type : String
  target : String := ""
  text : String := ""
  description : String := ""
  delay : Rat := 1
  value : Option PyVal := Option.none

/-- One entry of `conversation_history`: the dicts appended at source
lines 372-375 and 476-479 have exactly a role and a content. -/
structure Msg where
  role : String
  content : String
deriving DecidableEq

/-- `ConversationMessage` dataclass (source lines 44-51); the wall-clock
`timestamp` and the never-populated `action` field are not modelled. -/
structure ConversationMessage where
  role : String
  content : String
  screenshot : Option String := Option.none
deriving DecidableEq

/-! ## OpenRouterClient.analyze_intent (source lines 87-179)

The HTTP call `generate_response` is external: the model takes the raw
reply string abstracted at the `json.loads` boundary, as either a string
that fails JSON parsing (which includes the two apology strings
`generate_response` substitutes on provider failure) or the parsed value. -/

/-- The Reasoner's raw reply for one turn, at the `json.loads` boundary. -/
inductive RawResponse where
  | notJson (s : String)
  | json (v : PyVal)

/-- The system prompt (source lines 89-154).  Its full 65-line literal is
inert English/JSON example text no claim depends on; the constant keeps its
opening sentence as a stand-in.  What the model does track faithfully is the
structure of the message list built around it. -/
def system_prompt : String :=
  "You are an AI browser automation agent. Your job is to understand user requests and determine what browser actions are needed."

/-- The fallback intent dict returned when the Reasoner reply fails JSON
parsing (source lines 174-179). -/
def fallback_intent : PyVal :=
  .dict
    [("intent", .str "unclear request"),
     ("actions", .list []),
     ("requires_info", .list [.str "Please clarify your request with more details."]),
     ("response", .str "I'm sorry, I didn't understand your request. Could you provide more details?")]

/-- The message payload `analyze_intent` sends to the Reasoner (source lines
156-163): system prompt, the current utterance framed as a user request, then
the last 5 entries of the conversation history passed in. -/
def analyzeMessages (user_input : String) (hist : List Msg) : List Msg :=
  [⟨"system", system_prompt⟩, ⟨"user", "User request: " ++ user_input⟩] ++ lastN 5 hist

/-- The parsing half of `analyze_intent` (source lines 167-179): the reply
either parses as JSON and is returned unvalidated, or the fallback intent
dict is produced.  No exception escapes (`json.JSONDecodeError` is caught). -/
def parse_plan : RawResponse → PyVal
  | .json v => v
  | .notJson _ => fallback_intent

/-- `analyze_intent` (source lines 87-179): returns both the payload sent to
the Reasoner and the parsed intent data. -/
def analyze_intent (user_input : String) (hist : List Msg) (raw : RawResponse) :
    List Msg × PyVal :=
  (analyzeMessages user_input hist, parse_plan raw)

/-! ## BrowserController.execute_action (source lines 257-321)

Each Playwright primitive is an oracle function returning
`Except String Unit`; `error e` models the primitive raising an exception
with `str(e) = e`.  `execBody` is the `try` block, `execute_action` adds the
`except` recovery branch.  Every primitive invocation is logged as a
`PrimCall` carrying the literal timeout argument the source passes. -/

/-- One Playwright primitive invocation, with the timeout the source passes. -/
inductive PrimCall where
  | goto (url : String) (timeoutMs : Nat)
  | waitForLoadState (st : String) (timeoutMs : Nat)
  | waitForSelector (sel : String) (timeoutMs : Nat)
  | click (sel : String)
  | fill (sel : String) (s : String)
  | scrollIntoViewIfNeeded (sel : String) (timeoutMs : Nat)
  | evaluate (js : String)
  | waitForTimeout (ms : Int)
  | selectOption (sel : String) (v : String)
  | querySelector (sel : String)
  | textContent
  | frameLocator (sel : String)
  | reload (timeoutMs : Nat)
deriving DecidableEq

/-- The live page as an oracle: one function per Playwright primitive the
source awaits.  `page.frame_locator` is a synchronous constructor and cannot
fail, so it has no oracle entry (it is still traced). -/
structure BrowserSession where
  goto : String → Except String Unit
  waitForLoadState : String → Except String Unit
  waitForSelector : String → Except String Unit
  click : String → Except String Unit
  fill : String → String → Except String Unit
  scrollIntoViewIfNeeded : String → Except String Unit
  evaluate : String → Except String Unit
  waitForTimeout : Int → Except String Unit
  selectOption : String → String → Except String Unit
  querySelector : String → Except String (Option Unit)
  textContent : Except String String
  reload : Except String Unit
  screenshotB64 : String

/-- The `try` block of `execute_action` (source lines 262-313): dispatch on
`action_type`, performing the branch's primitives in order; the first
primitive that raises aborts the branch with its exception.  The debug-only
cookie logging after navigation is not modelled (observable only in the
log).  The `wait` success message renders the delay with Lean number
formatting rather than Python float formatting; no claim depends on it. -/
def execBody (pg : BrowserSession) (a : BrowserAction) :
    Except String (Bool × String) × List PrimCall :=
  if a.action_type = "navigate" then
    match pg.goto a.target with
    | .error e => (.error e, [.goto a.target 30000])
    | .ok _ =>
      match pg.waitForLoadState "domcontentloaded" with
      | .error e => (.error e,
        [.goto a.target 30000, .waitForLoadState "domcontentloaded" 30000])
      | .ok _ => (.ok (true, "Navigated to " ++ a.target),
        [.goto a.target 30000, .waitForLoadState "domcontentloaded" 30000])
  else if a.action_type = "click" then
    match pg.waitForSelector a.target with
    | .error e => (.error e, [.waitForSelector a.target 10000])
    | .ok _ =>
      match pg.click a.target with
      | .error e => (.error e, [.waitForSelector a.target 10000, .click a.target])
      | .ok _ => (.ok (true, "Clicked on " ++ a.target),
        [.waitForSelector a.target 10000, .click a.target])
  else if a.action_type = "type" then
    match pg.waitForSelector a.target with
    | .error e => (.error e, [.waitForSelector a.target 10000])
    | .ok _ =>
      match pg.fill a.target a.text with
      | .error e => (.error e, [.waitForSelector a.target 10000, .fill a.target a.text])
      | .ok _ => (.ok (true, "Typed '" ++ a.text ++ "' into " ++ a.target),
        [.waitForSelector a.target 10000, .fill a.target a.text])
  else if a.action_type = "scroll" then
    if a.target != "" then
      match pg.scrollIntoViewIfNeeded a.target with
      | .error e => (.error e, [.scrollIntoViewIfNeeded a.target 10000])
      | .ok _ => (.ok (true, "Scrolled to element " ++ a.target),
        [.scrollIntoViewIfNeeded a.target 10000])
    else
      match pg.evaluate "window.scrollTo(0, document.body.scrollHeight)" with
      | .error e => (.error e, [.evaluate "window.scrollTo(0, document.body.scrollHeight)"])
      | .ok _ => (.ok (true, "Scrolled to bottom of page"),
        [.evaluate "window.scrollTo(0, document.body.scrollHeight)"])
  else if a.action_type = "wait" then
    match pg.waitForTimeout (pyInt (a.delay * 1000)) with
    | .error e => (.error e, [.waitForTimeout (pyInt (a.delay * 1000))])
    | .ok _ => (.ok (true, "Waited for " ++ toString a.delay ++ " seconds"),
      [.waitForTimeout (pyInt (a.delay * 1000))])
  else if a.action_type = "screenshot" then
    (.ok (true, "Screenshot taken"), [])
  else if a.action_type = "select" then
    match pg.waitForSelector a.target with
    | .error e => (.error e, [.waitForSelector a.target 10000])
    | .ok _ =>
      match pg.selectOption a.target a.text with
      | .error e => (.error e, [.waitForSelector a.target 10000, .selectOption a.target a.text])
      | .ok _ => (.ok (true, "Selected option '" ++ a.text ++ "' in " ++ a.target),
        [.waitForSelector a.target 10000, .selectOption a.target a.text])
  else if a.action_type = "extract" then
    match pg.waitForSelector a.target with
    | .error e => (.error e, [.waitForSelector a.target 10000])
    | .ok _ =>
      match pg.querySelector a.target with
      | .error e => (.error e, [.waitForSelector a.target 10000, .querySelector a.target])
      | .ok (some _) =>
        match pg.textContent with
        | .error e => (.error e,
          [.waitForSelector a.target 10000, .querySelector a.target, .textContent])
        | .ok t => (.ok (true, "Extracted text: " ++ t),
          [.waitForSelector a.target 10000, .querySelector a.target, .textContent])
      | .ok Option.none => (.ok (true, "Extracted text: "),
        [.waitForSelector a.target 10000, .querySelector a.target])
  else if a.action_type = "switch_frame" then
    (.ok (true, "Switched to iframe " ++ a.target), [.frameLocator a.target])
  else
    (.ok (false, "Unknown action type: " ++ a.action_type), [])

/-- `execute_action` (source lines 257-321): the guard for an absent page,
the `try` body, and the `except` branch that attempts exactly one recovery
reload (timeout 30s) and converts the exception into a `(False, explanation)`
result.  The function is total: no exception propagates past it. -/
def execute_action (page : Option BrowserSession) (a : BrowserAction) :
    (Bool × String) × List PrimCall :=
  match page with
  | Option.none => ((false, "Browser not initialized"), [])
  | some pg =>
    match execBody pg a with
    | (.ok r, tr) => (r, tr)
    | (.error e, tr) =>
      match pg.reload with
      | .ok _ =>
        ((false, "Action failed: " ++ e ++ ". Page reloaded for retry."), tr ++ [.reload 30000])
      | .error _ =>
        ((false, "Action failed: " ++ e ++ ". Could not recover."), tr ++ [.reload 30000])

/-- `take_screenshot` (source lines 244-255): empty string when no page; its
internal exception path also yields `""`, which the oracle string covers. -/
def take_screenshot (page : Option BrowserSession) : String :=
  match page with
  | Option.none => ""
  | some pg => pg.screenshotB64

/-! ## Email-detail extraction (source lines 389-399)

The three `re.search` calls use patterns whose character classes are
disjoint from the literal that must follow them, so Python's backtracking
search is equivalent to leftmost-start, maximal-munch matching, which is
what the functions below implement character by character. -/

/-- Python `\w` (ASCII). -/
def isWordChar (c : Char) : Bool := c.isAlphanum || c == '_'

/-- The class `[\w\.-]` of the recipient pattern. -/
def isEmailChar (c : Char) : Bool := isWordChar c || c == '.' || c == '-'

/-- Python `\s` (ASCII). -/
def isPySpace (c : Char) : Bool :=
  c == ' ' || c == '\t' || c == '\n' || c == '\r' || c == '\x0b' || c == '\x0c'

/-- The quote class `['\"]` of the subject and body patterns. -/
def isQuoteChar (c : Char) : Bool := c == '\'' || c == '"'

/-- Match `to\s+([\w\.-]+@[\w\.-]+)` anchored at the head of the text,
returning capture group 1. -/
def matchToAt (cs : List Char) : Option String :=
  match cs with
  | 't' :: 'o' :: rest =>
    if (rest.takeWhile isPySpace).isEmpty then Option.none else
    let rest1 := rest.dropWhile isPySpace
    let loc := rest1.takeWhile isEmailChar
    if loc.isEmpty then Option.none else
    match rest1.dropWhile isEmailChar with
    | '@' :: rest3 =>
      let dom := rest3.takeWhile isEmailChar
      if dom.isEmpty then Option.none else some (String.mk (loc ++ '@' :: dom))
    | _ => Option.none
  | _ => Option.none

/-- `re.search(r"to\s+([\w\.-]+@[\w\.-]+)", s)` (source line 389):
leftmost match of `matchToAt`. -/
def searchRecipient : List Char → Option String
  | [] => Option.none
  | c :: cs =>
    match matchToAt (c :: cs) with
    | some r => some r
    | Option.none => searchRecipient cs

/-- The lazy group `(.+?)` up to the first closing quote: at least one
captured character, none of them a newline (`.` does not match `\n`),
stopping at the first quote character after the first captured one. -/
def lazyCapGo (acc : List Char) : List Char → Option String
  | c :: rest =>
    if isQuoteChar c then some (String.mk acc.reverse)
    else if c == '\n' then Option.none
    else lazyCapGo (c :: acc) rest
  | [] => Option.none

/-- `(.+?)['\"]` after the opening quote. -/
def lazyCap : List Char → Option String
  | c :: rest => if c == '\n' then Option.none else lazyCapGo [c] rest
  | [] => Option.none

/-- Match `<kw>\s+['\"](.+?)['\"]` anchored at the head of the text. -/
def matchQuotedAt (kw : List Char) (cs : List Char) : Option String :=
  if kw.isPrefixOf cs then
    let rest := cs.drop kw.length
    if (rest.takeWhile isPySpace).isEmpty then Option.none else
    match rest.dropWhile isPySpace with
    | q :: rest2 => if isQuoteChar q then lazyCap rest2 else Option.none
    | [] => Option.none
  else Option.none

/-- `re.search(r"<kw>\s+['\"](.+?)['\"]", s)` (source lines 390-391). -/
def searchQuoted (kw : List Char) : List Char → Option String
  | [] => Option.none
  | c :: cs =>
    match matchQuotedAt kw (c :: cs) with
    | some r => some r
    | Option.none => searchQuoted kw cs

/-- The `email_details` dict written at source line 400; the three keys are
always written together from the three capture groups. -/
structure EmailDetails where
  recipient : String
  subject : String
  body : String
deriving DecidableEq

/-- The three `re.search` calls of source lines 389-393 combined: `some`
exactly when all three patterns match (`if not (recipient and subject and
body)` fails the turn otherwise). -/
def extract_email_details (s : String) : Option EmailDetails :=
  let cs := s.toList
  match searchRecipient cs, searchQuoted "subject".toList cs, searchQuoted "body".toList cs with
  | some r, some sub, some b => some ⟨r, sub, b⟩
  | _, _, _ => Option.none

/-! ## Task context and credential substitution -/

/-- The `email_credentials` dict.  Its only writer (source lines 588-592)
stores both keys together and only when both strings are non-empty, so it is
modelled as a two-field record; `d.get("email", "")` and
`d.get("password", "")` at lines 439 and 441 are the field reads. -/
structure EmailCredentials where
  email : String
  password : String
deriving DecidableEq

/-- `self.task_context` (source line 361): absent keys are `Option.none`. -/
structure TaskContext where
  email_credentials : Option EmailCredentials := Option.none
  email_details : Option EmailDetails := Option.none

/-- The sidebar store of Gmail credentials (source lines 588-592): written
only when both fields are truthy, overwriting any previous value. -/
def store_email_credentials (ctx : TaskContext) (gmail_email gmail_password : String) :
    TaskContext :=
  if gmail_email != "" && gmail_password != "" then
    { ctx with email_credentials := some ⟨gmail_email, gmail_password⟩ }
  else ctx

/-- The credential-substitution block of the turn loop (source lines
436-447): guarded by the utterance containing "send email" and a truthy
stored credentials dict, it overwrites `text` for the five recognized
targets; `task_context["email_details"]` is a bracket access, so a missing
details dict raises (`KeyError`). -/
def substitute_credentials (user_input : String) (ctx : TaskContext) (a : BrowserAction) :
    Except String BrowserAction :=
  if strContainsB (pyLower user_input) "send email" then
    match ctx.email_credentials with
    | some cred =>
      if a.target = "input#identifierId" then .ok { a with text := cred.email }
      else if a.target = "input[type='password']" then .ok { a with text := cred.password }
      else if a.target = "input[aria-label='To']" then
        match ctx.email_details with
        | some det => .ok { a with text := det.recipient }
        | Option.none => .error "KeyError: email_details"
      else if a.target = "input[aria-label='Subject']" then
        match ctx.email_details with
        | some det => .ok { a with text := det.subject }
        | Option.none => .error "KeyError: email_details"
      else if a.target = "div[aria-label='Message Body']" then
        match ctx.email_details with
        | some det => .ok { a with text := det.body }
        | Option.none => .error "KeyError: email_details"
      else .ok a
    | Option.none => .ok a
  else .ok a

/-! ## ConversationalBrowserAgent.process_user_input (source lines 368-488) -/

/-- Python iteration `for x in v`. -/
def PyVal.iterate : PyVal → Except String (List PyVal)
  | .list xs => .ok xs
  | .str s => .ok (s.toList.map (fun c => .str (String.singleton c)))
  | .dict kvs => .ok (kvs.map (fun kv => .str kv.1))
  | _ => .error "TypeError: value is not iterable"

/-- The `BrowserAction` construction of source lines 428-434.  The payload's
`delay` key is never read, so the dataclass default `1.0` always applies. -/
def buildAction (d : PyVal) : Except String BrowserAction := do
  let aty ← (← d.getItem "action_type").asStr
  let tgt ← d.getStrD "target"
  let tx ← d.getStrD "text"
  let desc ← d.getStrD "description"
  let v ← d.getOpt "value"
  pure { action_type := aty, target := tgt, text := tx, description := desc, value := v }

/-- `self.browser` as the turn sees it. -/
structure Browser where
  page : Option BrowserSession
  is_initialized : Bool

/-- The orchestrator's per-conversation state. -/
structure Agent where
  state : AgentState
  conversation_history : List Msg
  task_context : TaskContext

/-- Accumulator of the action loop (source lines 421-465).  The fields up to
`extracted_data` mirror program variables; `errored`, `executed`,
`outcomes`, `failMarks`, `sleeps` and `trace` are ghost instrumentation
recording, without altering any behavior, whether the loop broke on a
failure, the actions passed to `execute_action` with their success flags,
how many times the failure line was appended, the pacing sleeps performed,
and the Playwright primitives invoked. -/
structure LoopAcc where
  response_content : String
  screenshot : Option String := Option.none
  extracted_data : List String := []
  errored : Bool := false
  executed : List BrowserAction := []
  outcomes : List Bool := []
  failMarks : Nat := 0
  sleeps : List Rat := []
  trace : List PrimCall := []

/-- The kinds after which a screenshot is captured (source line 457). -/
def significantKinds : List String := ["navigate", "click", "type", "select", "switch_frame"]

/-- The action loop (source lines 427-465): build the action from its
payload dict, substitute credentials, execute; on success append the ✅
line, record extraction, maybe screenshot, then sleep `action.delay`; on
failure append the ❌ line and break (the sleep is skipped). -/
def runActions (user_input : String) (ctx : TaskContext) (b : Browser) :
    List PyVal → LoopAcc → Except String LoopAcc
  | [], acc => .ok acc
  | d :: rest, acc => do
    let a0 ← buildAction d
    let a ← substitute_credentials user_input ctx a0
    let ((success, result), tr) := execute_action b.page a
    if success then
      runActions user_input ctx b rest
        { response_content := acc.response_content ++ "\n\n✅ " ++ a.description ++ ": " ++ result
          screenshot :=
            if significantKinds.contains a.action_type then some (take_screenshot b.page)
            else acc.screenshot
          extracted_data :=
            if a.action_type = "extract" then acc.extracted_data ++ [result]
            else acc.extracted_data
          errored := acc.errored
          executed := acc.executed ++ [a]
          outcomes := acc.outcomes ++ [true]
          failMarks := acc.failMarks
          sleeps := acc.sleeps ++ [a.delay]
          trace := acc.trace ++ tr }
    else
      .ok { acc with
        response_content := acc.response_content ++ "\n\n❌ Failed: " ++ result
        errored := true
        executed := acc.executed ++ [a]
        outcomes := acc.outcomes ++ [false]
        failMarks := acc.failMarks + 1
        trace := acc.trace ++ tr }

/-- The early-return prompt of source lines 380-384. -/
def waiting_credentials_prompt : String :=
  "Please provide your Gmail address and password (use a test account only) to proceed with sending an email."

/-- The early-return prompt of source lines 395-399. -/
def email_format_prompt : String :=
  "Please provide the recipient's email, subject, and body. Example: 'Send email to test@example.com, subject \"Meeting\", body \"Let's meet tomorrow.\"'"

/-- The outcome of one turn.  `agent` and `reply` mirror the program;
`analyzeLog` (the payloads sent to the Reasoner this turn), the loop ghosts,
and `stateTrace` (every value assigned to `self.state` during the turn, in
order) are ghost instrumentation. -/
structure TurnResult where
  agent : Agent
  reply : ConversationMessage
  analyzeLog : List (List Msg)
  executed : List BrowserAction
  outcomes : List Bool
  failMarks : Nat
  sleeps : List Rat
  trace : List PrimCall
  stateTrace : List AgentState

/-- `process_user_input` (source lines 368-488).  `raw` is the Reasoner
oracle for the one `analyze_intent` call the turn may make.  `Except.error`
models an exception propagating out of the method (caught by the UI layer). -/
def process_user_input (ag : Agent) (b : Browser) (user_input : String) (raw : RawResponse) :
    Except String TurnResult := do
  let hist1 := ag.conversation_history ++ [⟨"user", user_input⟩]
  let sendMail := strContainsB (pyLower user_input) "send email"
  -- lines 378-384: credentials precondition, no Reasoner call
  if sendMail && ag.task_context.email_credentials.isNone then
    return {
      agent := { state := .WAITING_FOR_INPUT, conversation_history := hist1,
                 task_context := ag.task_context }
      reply := { role := "assistant", content := waiting_credentials_prompt }
      analyzeLog := [], executed := [], outcomes := [], failMarks := 0, sleeps := [], trace := []
      stateTrace := [.WAITING_FOR_INPUT] }
  -- lines 387-399: email-detail extraction precondition
  if sendMail && ag.task_context.email_credentials.isSome
      && (extract_email_details user_input).isNone then
    return {
      agent := { state := .WAITING_FOR_INPUT, conversation_history := hist1,
                 task_context := ag.task_context }
      reply := { role := "assistant", content := email_format_prompt }
      analyzeLog := [], executed := [], outcomes := [], failMarks := 0, sleeps := [], trace := []
      stateTrace := [.WAITING_FOR_INPUT] }
  -- line 400: store the parsed details
  let ctx1 :=
    if sendMail && ag.task_context.email_credentials.isSome then
      match extract_email_details user_input with
      | some det => { ag.task_context with email_details := some det }
      | Option.none => ag.task_context
    else ag.task_context
  -- lines 407-408: Thinking, one analyze call
  let (payload, intent_data) := analyze_intent user_input hist1 raw
  -- lines 411-418: missing information short-circuits execution
  let ri ← intent_data.getOpt "requires_info"
  if (match ri with | some v => v.truthy | Option.none => false) then
    let resp ← (← intent_data.getItem "response").asStr
    return {
      agent := { state := .WAITING_FOR_INPUT, conversation_history := hist1,
                 task_context := ctx1 }
      reply := { role := "assistant", content := resp }
      analyzeLog := [payload], executed := [], outcomes := [], failMarks := 0, sleeps := []
      trace := []
      stateTrace := [.THINKING, .WAITING_FOR_INPUT] }
  -- lines 421-426: Acting
  let respBase ← (← intent_data.getItem "response").asStr
  let actsO ← intent_data.getOpt "actions"
  let acc ←
    if (match actsO with | some v => v.truthy | Option.none => false) then do
      let actsList ← (← intent_data.getItem "actions").iterate
      runActions user_input ctx1 b actsList { response_content := respBase }
    else pure { response_content := respBase }
  -- lines 468-469: final screenshot if none was captured
  let shot :=
    if (match acc.screenshot with | Option.none => true | some s => s == "") && b.is_initialized
    then some (take_screenshot b.page) else acc.screenshot
  -- lines 472-473
  let rc :=
    if !acc.extracted_data.isEmpty then
      acc.response_content ++ "\n\n📋 Extracted Data:\n"
        ++ String.intercalate "\n" acc.extracted_data
    else acc.response_content
  -- lines 476-488: history append, unconditional return to Idle
  return {
    agent := { state := .IDLE, conversation_history := hist1 ++ [⟨"assistant", rc⟩],
               task_context := ctx1 }
    reply := { role := "assistant", content := rc, screenshot := shot }
    analyzeLog := [payload]
    executed := acc.executed, outcomes := acc.outcomes, failMarks := acc.failMarks
    sleeps := acc.sleeps, trace := acc.trace
    stateTrace := [.THINKING, .ACTING] ++ (if acc.errored then [.ERROR] else []) ++ [.IDLE] }

/-! ## Concrete fixtures used by witnesses and counterexamples -/

/-- A session whose every primitive succeeds. -/
def okSession : BrowserSession :=
  { goto := fun _ => .ok (), waitForLoadState := fun _ => .ok ()
    waitForSelector := fun _ => .ok (), click := fun _ => .ok ()
    fill := fun _ _ => .ok (), scrollIntoViewIfNeeded := fun _ => .ok ()
    evaluate := fun _ => .ok (), waitForTimeout := fun _ => .ok ()
    selectOption := fun _ _ => .ok (), querySelector := fun _ => .ok (some ())
    textContent := .ok "headline", reload := .ok (), screenshotB64 := "IMG" }

/-- A session whose selector waits time out; the recovery reload succeeds. -/
def timeoutSession : BrowserSession :=
  { okSession with waitForSelector := fun _ => .error "Timeout 10000ms exceeded" }

/-- The browser wrapper around `okSession`. -/
def okBrowser : Browser := { page := some okSession, is_initialized := true }

/-- The browser wrapper around `timeoutSession`. -/
def timeoutBrowser : Browser := { page := some timeoutSession, is_initialized := true }

/-- The stored test credential whose password is `c1Secret`. -/
def c1Secret : String := "hunter2secretpw"

/-- A task context holding stored Gmail credentials. -/
def c1Context : TaskContext :=
  { email_credentials := some ⟨"tester@gmail.com", c1Secret⟩ }

/-- A fresh agent that has stored credentials and empty history. -/
def c1Agent : Agent :=
  { state := .IDLE, conversation_history := [], task_context := c1Context }

/-- A send-email utterance whose recipient, subject and body all parse. -/
def c1Input : String := "send email to bob@example.com, subject \"Hi\", body \"Yo\""

/-- A Reasoner plan containing a single `type` step into the recognized
password field (its `text` will be substituted from the vault). -/
def c1Raw : RawResponse :=
  .json (.dict
    [("intent", .str "send an email"),
     ("actions", .list [.dict
       [("action_type", .str "type"), ("target", .str "input[type='password']"),
        ("text", .str ""), ("description", .str "Enter password")]]),
     ("requires_info", .list []),
     ("response", .str "Logging in.")])

/-- The send-email turn executed against the benign session. -/
def c1Result : Except String TurnResult := process_user_input c1Agent okBrowser c1Input c1Raw

end CBA

namespace CBA

/-- C1: the spec guarantees stored credential values never reach a Reasoner
payload or a conversation-history content string, and the code violates it:
after the `type` step into the password field, the success message
`Typed '<password>' into <target>` (source line 279) is appended to the
assistant reply and to the history (lines 453 and 476-479), and the next
analyze call forwards that history entry inside its payload (lines 161-163).
This theorem evaluates the code at the failing input: the stored password
was in no prior history entry, yet after the turn it occurs in a history
content string and in the payload of the next turn's analyze call. -/
theorem c1_password_leaks_to_history_and_reasoner :
    (c1Result.map (fun r =>
      (c1Agent.conversation_history.any (fun m => strContainsB m.content c1Secret),
       r.agent.conversation_history.any (fun m => strContainsB m.content c1Secret),
       (analyzeMessages "open my inbox" (r.agent.conversation_history
          ++ [⟨"user", "open my inbox"⟩])).any (fun m => strContainsB m.content c1Secret))))
    = .ok (false, true, true) := by
  rfl

/-- A well-formed JSON plan whose single step has the unrecognized kind
`frobnicate`. -/
def c4Plan : PyVal :=
  .dict
    [("intent", .str "do something"),
     ("actions", .list [.dict [("action_type", .str "frobnicate")]]),
     ("requires_info", .list []),
     ("response", .str "Doing it.")]

/-- `c4Plan` as a Reasoner reply that parses as JSON. -/
def c4Raw : RawResponse := .json c4Plan

/-- C4 counterexample: a payload that parses as JSON but contains a step
with the unrecognized kind `frobnicate` is returned by the parser as-is -
not replaced by the fallback plan - and the unknown kind is only rejected
later, when `execute_action` returns `(False, "Unknown action type: ...")`
(source lines 312-313). -/
theorem c4_unknown_kind_not_rejected_at_parse_time :
    parse_plan c4Raw = c4Plan ∧ parse_plan c4Raw ≠ fallback_intent ∧
    (execute_action (some okSession) { action_type := "frobnicate" }).1
      = (false, "Unknown action type: frobnicate") := by
  refine ⟨rfl, ?_, rfl⟩
  intro h
  have h2 := congrArg (fun v => v.getOpt "requires_info") h
  simp [c4Raw, c4Plan, parse_plan, fallback_intent, PyVal.getOpt, List.lookup] at h2

/-- An agent with no task context and a click plan against a session whose
selector wait times out. -/
def c5Agent : Agent :=
  { state := .IDLE, conversation_history := [], task_context := {} }

/-- A plan with one `click` step (it will time out against
`timeoutSession`). -/
def c5Raw : RawResponse :=
  .json (.dict
    [("intent", .str "click the button"),
     ("actions", .list [.dict
       [("action_type", .str "click"), ("target", .str "#go"),
        ("description", .str "Click go")]]),
     ("requires_info", .list []),
     ("response", .str "Clicking.")])

/-- The turn whose only step fails. -/
def c5Result : Except String TurnResult :=
  process_user_input c5Agent timeoutBrowser "click go" c5Raw

/-- C5 counterexample: in a turn whose step failed (one failure mark,
`ERROR` assigned mid-turn), the orchestrator's state at the end of the turn
is `IDLE`, not `ERROR`: source line 481 overwrites the state
unconditionally. -/
theorem c5_failed_turn_ends_idle_not_error :
    (c5Result.map (fun r => (r.agent.state, r.stateTrace, r.failMarks)))
      = .ok (.IDLE, [.THINKING, .ACTING, .ERROR, .IDLE], 1) := by
  rfl

/-- Five prior conversation turns. -/
def c9Hist : List Msg :=
  [⟨"user", "m1"⟩, ⟨"assistant", "m2"⟩, ⟨"user", "m3"⟩, ⟨"assistant", "m4"⟩, ⟨"user", "m5"⟩]

/-- An agent with five prior history entries. -/
def c9Agent : Agent :=
  { state := .IDLE, conversation_history := c9Hist, task_context := {} }

/-- A turn of `c9Agent`; the Reasoner reply is unparseable, which makes the
turn stop in the missing-info branch after one analyze call. -/
def c9Result : Except String TurnResult :=
  process_user_input c9Agent okBrowser "hello" (.notJson "oops")

/-- C9 counterexample: the claim says the context window holds at most the
last 5 turns of history *prior* to the current utterance, with the utterance
passed separately and not counted.  But the source appends the utterance to
history (line 372) before slicing the last 5 (line 162), so the window of
this concrete turn contains the current utterance `⟨user, hello⟩` as one of
its 5 entries and drops `m1`, which is among the last 5 prior turns. -/
theorem c9_window_counts_current_utterance :
    (c9Result.map (fun r => r.analyzeLog))
      = .ok [[⟨"system", system_prompt⟩, ⟨"user", "User request: hello"⟩,
              ⟨"assistant", "m2"⟩, ⟨"user", "m3"⟩, ⟨"assistant", "m4"⟩,
              ⟨"user", "m5"⟩, ⟨"user", "hello"⟩]]
    ∧ (c9Result.map (fun r =>
        (r.analyzeLog.any (fun p => p.any (fun m => m == ⟨"user", "hello"⟩)),
         r.analyzeLog.any (fun p => p.any (fun m => m == ⟨"user", "m1"⟩)))))
      = .ok (true, false) := by
  exact ⟨rfl, rfl⟩

/-- C8: a turn whose utterance contains "send email" (case-insensitively)
while no email credentials are stored short-circuits: it ends in
`WAITING_FOR_INPUT`, returns the fixed prompt asking for the Gmail address
and password, makes zero analyze calls, and executes nothing
(source lines 378-384). -/
theorem c8_send_email_without_credentials_short_circuits
    (ag : Agent) (b : Browser) (ui : String) (raw : RawResponse)
    (hui : strContainsB (pyLower ui) "send email" = true)
    (hcred : ag.task_context.email_credentials = Option.none) :
    process_user_input ag b ui raw = .ok
      { agent := { state := .WAITING_FOR_INPUT,
                   conversation_history := ag.conversation_history ++ [⟨"user", ui⟩],
                   task_context := ag.task_context }
        reply := { role := "assistant", content := waiting_credentials_prompt }
        analyzeLog := [], executed := [], outcomes := [], failMarks := 0, sleeps := []
        trace := []
        stateTrace := [.WAITING_FOR_INPUT] } := by
  simp [process_user_input, hui, hcred, pure, Except.pure]

/-- C8 witness: the short-circuit at a concrete turn. -/
theorem c8_send_email_without_credentials_short_circuits_witness :
    ∃ r, process_user_input c5Agent okBrowser "Send Email please" (.notJson "x") = .ok r
      ∧ r.agent.state = .WAITING_FOR_INPUT ∧ r.analyzeLog = [] := by
  refine ⟨_, c8_send_email_without_credentials_short_circuits c5Agent okBrowser
    "Send Email please" (.notJson "x") (by decide) rfl, rfl, rfl⟩

/-- C7: storing credentials with password `V` (the sidebar store, source
lines 588-592) and then substituting a step whose target is the recognized
password locator yields the step with `text = V`; when no credentials are
stored, substitution returns every step unchanged (source lines 436-447). -/
theorem c7_password_substitution_roundtrip
    (ui : String) (ctx : TaskContext) (e V : String) (step : BrowserAction)
    (hui : strContainsB (pyLower ui) "send email" = true)
    (htgt : step.target = "input[type='password']")
    (he : e ≠ "") (hV : V ≠ "") :
    substitute_credentials ui (store_email_credentials ctx e V) step
      = .ok { step with text := V }
    ∧ (∀ (ui2 : String) (ctx2 : TaskContext) (step2 : BrowserAction),
        ctx2.email_credentials = Option.none →
        substitute_credentials ui2 ctx2 step2 = .ok step2) := by
  constructor
  · simp [store_email_credentials, substitute_credentials, hui, htgt, he, hV]
  · intro ui2 ctx2 step2 hnone
    unfold substitute_credentials
    rw [hnone]
    split <;> rfl

/-- C7 witness: the round trip at concrete values. -/
theorem c7_password_substitution_roundtrip_witness :
    substitute_credentials "send email to a@b.com"
        (store_email_credentials {} "t@g.com" "pw1")
        { action_type := "type", target := "input[type='password']" }
      = .ok { action_type := "type", target := "input[type='password']", text := "pw1" }
    ∧ substitute_credentials "send email to a@b.com" {}
        { action_type := "type", target := "input[type='password']" }
      = .ok { action_type := "type", target := "input[type='password']" } := by
  have h := c7_password_substitution_roundtrip "send email to a@b.com" {} "t@g.com" "pw1"
    { action_type := "type", target := "input[type='password']" }
    (by decide) rfl (by decide) (by decide)
  exact ⟨h.1, h.2 "send email to a@b.com" {} _ rfl⟩

/-- C4 amended: a Reasoner reply that fails JSON parsing yields the fallback
plan (empty steps, the fixed `missingInfo` entry, the generic clarification
reply) and the parser raises nothing; but a JSON reply is returned
unvalidated, and an unrecognized step kind is rejected only at execution
time, by `execute_action` returning `(False, "Unknown action type: ...")`. -/
theorem c4_fallback_on_unparseable_and_execution_time_rejection :
    (∀ (s ui : String) (hist : List Msg),
        (analyze_intent ui hist (.notJson s)).2 = fallback_intent)
    ∧ (∀ (pg : BrowserSession) (a : BrowserAction),
        a.action_type ∉ (["navigate", "click", "type", "scroll", "wait", "screenshot",
          "select", "extract", "switch_frame"] : List String) →
        execute_action (some pg) a
          = ((false, "Unknown action type: " ++ a.action_type), [])) := by
  constructor
  · intro s ui hist; rfl
  · intro pg a h
    simp only [List.mem_cons, List.mem_singleton, not_or] at h
    obtain ⟨h1, h2, h3, h4, h5, h6, h7, h8, h9, -⟩ := h
    simp [execute_action, execBody, h1, h2, h3, h4, h5, h6, h7, h8, h9]

/-- C4 witness: both halves at concrete inputs. -/
theorem c4_fallback_on_unparseable_and_execution_time_rejection_witness :
    (analyze_intent "u" [] (.notJson "not json")).2 = fallback_intent
    ∧ execute_action (some okSession) { action_type := "frobnicate2" }
        = ((false, "Unknown action type: frobnicate2"), []) := by
  have h := c4_fallback_on_unparseable_and_execution_time_rejection
  exact ⟨h.1 "not json" "u" [], h.2 okSession { action_type := "frobnicate2" } (by decide)⟩

/-- The `try` body of `execute_action` never invokes the recovery reload:
the only reload is the one the `except` branch performs. -/
theorem execBody_trace_no_reload (pg : BrowserSession) (a : BrowserAction) (n : Nat) :
    PrimCall.reload n ∉ (execBody pg a).2 := by
  unfold execBody
  split_ifs <;> (repeat' split) <;> simp

/-- C6: when a step's underlying browser operation raises, `execute_action`
catches it at the step boundary, returns `(false, explanation)`, and
attempts exactly one recovery action - a reload bounded by its 30s timeout:
if the reload succeeds the explanation is `Action failed: <e>. Page
reloaded for retry.` and if the reload also fails the explanation notes
recovery was unsuccessful; no exception propagates (the result is a value
in every case). -/
theorem c6_step_failure_caught_with_single_reload
    (pg : BrowserSession) (a : BrowserAction) (e : String) (tr : List PrimCall)
    (h : execBody pg a = (.error e, tr)) :
    ∃ msg, execute_action (some pg) a = ((false, msg), tr ++ [.reload 30000])
      ∧ (∀ u, pg.reload = .ok u →
          msg = "Action failed: " ++ e ++ ". Page reloaded for retry.")
      ∧ (∀ er, pg.reload = .error er →
          msg = "Action failed: " ++ e ++ ". Could not recover.")
      ∧ List.count (PrimCall.reload 30000) (tr ++ [PrimCall.reload 30000]) = 1 := by
  have htr : tr.count (PrimCall.reload 30000) = 0 := by
    have := execBody_trace_no_reload pg a 30000
    rw [h] at this
    exact List.count_eq_zero.mpr this
  have hcount : (tr ++ [PrimCall.reload 30000]).count (PrimCall.reload 30000) = 1 := by
    simp [List.count_append, htr]
  cases hr : pg.reload with
  | ok u =>
    refine ⟨"Action failed: " ++ e ++ ". Page reloaded for retry.", ?_, ?_, ?_, hcount⟩
    · simp [execute_action, h, hr]
    · intro _ _; rfl
    · intro er her; simp at her
  | error er =>
    refine ⟨"Action failed: " ++ e ++ ". Could not recover.", ?_, ?_, ?_, hcount⟩
    · simp [execute_action, h, hr]
    · intro u hu; simp at hu
    · intro _ _; rfl

/-- C6 witness: a timed-out click with a successful recovery reload. -/
theorem c6_step_failure_caught_with_single_reload_witness :
    ∃ msg, execute_action (some timeoutSession) { action_type := "click", target := "#go" }
        = ((false, msg), [.waitForSelector "#go" 10000, .reload 30000])
      ∧ msg = "Action failed: Timeout 10000ms exceeded. Page reloaded for retry." := by
  obtain ⟨msg, hm, hok, -, -⟩ := c6_step_failure_caught_with_single_reload timeoutSession
    { action_type := "click", target := "#go" } "Timeout 10000ms exceeded"
    [.waitForSelector "#go" 10000] rfl
  exact ⟨msg, hm, hok () rfl⟩

/-- What one pass of the action loop adds to the ghost log: a (possibly
empty) run of successes, closed by a single failure exactly when the loop
broke with `errored`; the failure line is appended once per failure and the
loop stops there. -/
theorem runActions_progress (ui : String) (ctx : TaskContext) (b : Browser) :
    ∀ (ds : List PyVal) (acc acc' : LoopAcc),
      runActions ui ctx b ds acc = .ok acc' → acc.errored = false →
      ∃ out : List Bool,
        acc'.outcomes = acc.outcomes ++ out ∧
        acc'.executed.length = acc.executed.length + out.length ∧
        out.length ≤ ds.length ∧
        (acc'.errored = false →
          out = List.replicate ds.length true ∧ acc'.failMarks = acc.failMarks) ∧
        (acc'.errored = true →
          (∃ m, m + 1 ≤ ds.length ∧ out = List.replicate m true ++ [false]) ∧
          acc'.failMarks = acc.failMarks + 1 ∧
          ∃ p q, acc'.response_content = p ++ "\n\n❌ Failed: " ++ q) := by
  intro ds
  induction ds with
  | nil =>
    intro acc acc' h hE
    simp only [runActions] at h
    injection h with h
    subst h
    refine ⟨[], by simp, by simp, by simp, fun _ => ⟨rfl, rfl⟩, fun hT => ?_⟩
    rw [hE] at hT
    cases hT
  | cons d rest ih =>
    intro acc acc' h hE
    simp only [runActions, bind, Except.bind] at h
    cases hb : buildAction d with
    | error e2 => simp only [hb] at h; cases h
    | ok a0 =>
      simp only [hb] at h
      cases hs : substitute_credentials ui ctx a0 with
      | error e2 => simp only [hs] at h; cases h
      | ok a =>
        simp only [hs] at h
        split at h
        · obtain ⟨out', ho, hl, hle, hf, ht⟩ := ih _ acc' h (by simpa using hE)
          refine ⟨true :: out', ?_, ?_, ?_, ?_, ?_⟩
          · simp only [ho]; simp
          · simp only [hl]; simp; omega
          · simp; omega
          · intro hF
            obtain ⟨hout, hmk⟩ := hf hF
            refine ⟨?_, by simpa using hmk⟩
            rw [hout]
            simp [List.replicate_succ]
          · intro hT
            obtain ⟨⟨m, hm, hout⟩, hmk, hresp⟩ := ht hT
            exact ⟨⟨m + 1, by simpa using Nat.succ_le_succ hm,
              by rw [hout]; simp [List.replicate_succ]⟩, by simpa using hmk, hresp⟩
        · injection h with h
          subst h
          refine ⟨[false], by simp, by simp, by simp, fun hF => ?_, fun _ => ?_⟩
          · simp at hF
          · exact ⟨⟨0, by simp, by simp⟩, by simp,
              acc.response_content, (execute_action b.page a).1.2, rfl⟩

/-- C2: within one plan, execution is fail-fast: whenever the loop ends in
the errored state, the success flags of the executed steps are a run of
successes closed by exactly one final failure, at most as many steps were
executed as the plan has, the failure line was appended to the reply exactly
once, and the reply contains it; when no step failed, every plan step
executed with a success flag and no failure line was appended. -/
theorem c2_fail_fast (ui : String) (ctx : TaskContext) (b : Browser)
    (ds : List PyVal) (s : String) (acc : LoopAcc)
    (h : runActions ui ctx b ds { response_content := s } = .ok acc) :
    (acc.errored = true →
      acc.failMarks = 1
      ∧ (∃ m, m + 1 ≤ ds.length ∧ acc.outcomes = List.replicate m true ++ [false])
      ∧ acc.executed.length = acc.outcomes.length
      ∧ ∃ p q, acc.response_content = p ++ "\n\n❌ Failed: " ++ q)
    ∧ (acc.errored = false →
      acc.failMarks = 0 ∧ acc.outcomes = List.replicate ds.length true
      ∧ acc.executed.length = ds.length) := by
  obtain ⟨out, ho, hl, hle, hf, ht⟩ :=
    runActions_progress ui ctx b ds { response_content := s } acc h rfl
  constructor
  · intro hT
    obtain ⟨⟨m, hm, hout⟩, hmk, hresp⟩ := ht hT
    refine ⟨by simpa using hmk, ⟨m, hm, by simp [ho, hout]⟩, ?_, hresp⟩
    simp [ho, hl]
  · intro hF
    obtain ⟨hout, hmk⟩ := hf hF
    refine ⟨by simpa using hmk, by simp [ho, hout], ?_⟩
    simp [hl, hout]

/-- The turn against `timeoutBrowser` on a two-step plan: the first step
fails, so the loop must break. -/
def c2wDs : List PyVal :=
  [.dict [("action_type", .str "click"), ("target", .str "#a")],
   .dict [("action_type", .str "click"), ("target", .str "#b")]]

/-- The loop result of the `c2wDs` plan. -/
def c2wAcc : LoopAcc :=
  match runActions "go" {} timeoutBrowser c2wDs { response_content := "Plan." } with
  | .ok a => a
  | .error _ => { response_content := "" }

/-- C2 witness: on the concrete two-step plan whose first step times out,
only one step executed, with exactly one failure mark. -/
theorem c2_fail_fast_witness :
    c2wAcc.errored = true ∧ c2wAcc.failMarks = 1 ∧ c2wAcc.outcomes = [false]
      ∧ c2wAcc.executed.length = 1 := by
  have h := (c2_fail_fast "go" {} timeoutBrowser c2wDs "Plan." c2wAcc (by rfl)).1 (by rfl)
  exact ⟨by rfl, h.1, by rfl, by rfl⟩

/-- The `BrowserAction` construction never reads the payload's `delay`
key: the dataclass default `1.0` always applies. -/
theorem buildAction_delay_eq_one (d : PyVal) (a : BrowserAction)
    (h : buildAction d = .ok a) : a.delay = 1 := by
  simp only [buildAction, bind, Except.bind, pure, Except.pure] at h
  repeat' split at h
  all_goals simp_all
  all_goals (subst h; rfl)

/-- Credential substitution only rewrites `text`; the delay is preserved. -/
theorem substitute_preserves_delay (ui : String) (ctx : TaskContext) (a0 a : BrowserAction)
    (h : substitute_credentials ui ctx a0 = .ok a) : a.delay = a0.delay := by
  unfold substitute_credentials at h
  repeat' split at h
  all_goals simp_all
  all_goals (subst h; rfl)

/-- Every pacing sleep the loop performs lasts the built action's delay,
hence 1 second. -/
theorem runActions_sleeps_one (ui : String) (ctx : TaskContext) (b : Browser) :
    ∀ (ds : List PyVal) (acc acc' : LoopAcc),
      runActions ui ctx b ds acc = .ok acc' →
      (∀ q ∈ acc.sleeps, q = 1) → ∀ q ∈ acc'.sleeps, q = 1 := by
  intro ds
  induction ds with
  | nil =>
    intro acc acc' h hq
    simp only [runActions] at h
    injection h with h
    subst h
    exact hq
  | cons d rest ih =>
    intro acc acc' h hq
    simp only [runActions, bind, Except.bind] at h
    cases hb : buildAction d with
    | error e2 => simp only [hb] at h; cases h
    | ok a0 =>
      simp only [hb] at h
      cases hs : substitute_credentials ui ctx a0 with
      | error e2 => simp only [hs] at h; cases h
      | ok a =>
        simp only [hs] at h
        split at h
        · refine ih _ acc' h ?_
          intro q hmem
          simp only [List.mem_append, List.mem_singleton] at hmem
          rcases hmem with hmem | hmem
          · exact hq q hmem
          · rw [hmem, substitute_preserves_delay ui ctx a0 a hs,
              buildAction_delay_eq_one d a0 hb]
        · injection h with h
          subst h
          exact hq

/-- C10: every action built from a Reasoner payload has delay exactly 1
(the payload's `delay` field is never read), so a `wait` step suspends via
`wait_for_timeout(int(1.0 * 1000)) = 1000` milliseconds and every pacing
sleep between consecutive steps lasts exactly 1 second. -/
theorem c10_delay_defaults_to_one (d : PyVal) (a : BrowserAction)
    (h : buildAction d = .ok a) :
    a.delay = 1
    ∧ pyInt (a.delay * 1000) = 1000
    ∧ (∀ pg : BrowserSession, a.action_type = "wait" →
        (execBody pg a).2 = [.waitForTimeout 1000])
    ∧ (∀ (ui : String) (ctx : TaskContext) (b : Browser) (ds : List PyVal)
        (s : String) (acc : LoopAcc),
        runActions ui ctx b ds { response_content := s } = .ok acc →
        ∀ q ∈ acc.sleeps, q = 1) := by
  have hd := buildAction_delay_eq_one d a h
  have h1000 : pyInt ((1 : Rat) * 1000) = 1000 := by
    norm_num [pyInt, Rat.num_ofNat, Rat.den_ofNat]
  have hms : pyInt (a.delay * 1000) = 1000 := by rw [hd]; exact h1000
  refine ⟨hd, hms, ?_, ?_⟩
  · intro pg hw
    simp [execBody, hw, hd, h1000]
    first
    | rfl
    | split <;> rfl
  · intro ui ctx b ds s acc hrun q hq
    exact runActions_sleeps_one ui ctx b ds _ acc hrun (by simp) q hq

/-- C10 witness: a concrete payload requesting `delay = 5` still yields an
action with delay 1 and a 1000 ms wait. -/
theorem c10_delay_defaults_to_one_witness :
    buildAction (.dict [("action_type", .str "wait"), ("delay", .num 5)])
      = .ok { action_type := "wait" }
    ∧ ({ action_type := "wait" } : BrowserAction).delay = 1
    ∧ (execBody okSession { action_type := "wait" }).2 = [.waitForTimeout 1000] := by
  have h := c10_delay_defaults_to_one (.dict [("action_type", .str "wait"), ("delay", .num 5)])
    { action_type := "wait" } (by rfl)
  exact ⟨by rfl, h.1, h.2.2.1 okSession rfl⟩

/-- A placeholder turn result used only as the impossible-case default when
projecting a computed `Except.ok`. -/
def emptyTurn : TurnResult :=
  { agent := { state := .IDLE, conversation_history := [], task_context := {} }
    reply := { role := "", content := "" }
    analyzeLog := [], executed := [], outcomes := [], failMarks := 0, sleeps := [], trace := []
    stateTrace := [] }

/-- C3: whenever the Reasoner was called this turn and the parsed plan's
`requires_info` is a non-empty list, the turn returns before executing
anything: the state becomes `WAITING_FOR_INPUT`, the reply is the plan's
`response` string, and no action is executed (no primitive invoked, no
pacing sleep performed). -/
theorem c3_missing_info_blocks_execution
    (ag : Agent) (b : Browser) (ui : String) (raw : RawResponse) (r : TurnResult)
    (l : List PyVal) (resp : String)
    (hok : process_user_input ag b ui raw = .ok r)
    (hcalled : r.analyzeLog ≠ [])
    (hri : (parse_plan raw).getOpt "requires_info" = .ok (some (.list l)))
    (hne : l ≠ [])
    (hresp : (parse_plan raw).getItem "response" = .ok (.str resp)) :
    r.agent.state = .WAITING_FOR_INPUT ∧ r.reply.content = resp
      ∧ r.executed = [] ∧ r.trace = [] ∧ r.sleeps = [] := by
  simp only [process_user_input, analyze_intent, bind, Except.bind, pure, Except.pure] at hok
  split at hok
  · injection hok with hok
    subst hok
    exact absurd rfl hcalled
  · split at hok
    · injection hok with hok
      subst hok
      exact absurd rfl hcalled
    · simp only [hri] at hok
      have hT : (PyVal.list l).truthy = true := by
        cases l with
        | nil => exact absurd rfl hne
        | cons x xs => simp [PyVal.truthy]
      simp only [hT, if_true] at hok
      simp only [hresp, PyVal.asStr] at hok
      injection hok with hok
      subst hok
      exact ⟨rfl, rfl, rfl, rfl, rfl⟩

/-- The fallback-plan turn used by the C3 witness. -/
def c3wR : TurnResult :=
  match process_user_input c5Agent okBrowser "what" (.notJson "zzz") with
  | .ok r => r
  | .error _ => emptyTurn

/-- C3 witness: a concrete turn whose Reasoner reply is unparseable, so the
parsed plan is the fallback with non-empty `requires_info`. -/
theorem c3_missing_info_blocks_execution_witness :
    c3wR.agent.state = .WAITING_FOR_INPUT ∧ c3wR.executed = [] ∧ c3wR.trace = []
      ∧ c3wR.reply.content
        = "I'm sorry, I didn't understand your request. Could you provide more details?" := by
  have h := c3_missing_info_blocks_execution c5Agent okBrowser "what" (.notJson "zzz") c3wR
    [.str "Please clarify your request with more details."]
    "I'm sorry, I didn't understand your request. Could you provide more details?"
    (by rfl) (by decide) rfl (by simp) rfl
  exact ⟨h.1, h.2.2.1, h.2.2.2.1, h.2.1⟩

/-- C5 amended: the state a turn ends in is never `ERROR`: on the acting
path (the `ACTING` assignment happened) the turn ends in `IDLE` whether or
not a step failed, because source line 481 unconditionally overwrites the
state; the `ERROR` assigned at a step failure (line 461) is only transient
within the turn. -/
theorem c5_acting_turn_ends_idle
    (ag : Agent) (b : Browser) (ui : String) (raw : RawResponse) (r : TurnResult)
    (hok : process_user_input ag b ui raw = .ok r) :
    (AgentState.ACTING ∈ r.stateTrace → r.agent.state = .IDLE)
    ∧ (AgentState.ERROR ∈ r.stateTrace → r.agent.state = .IDLE) := by
  simp only [process_user_input, analyze_intent, bind, Except.bind, pure, Except.pure] at hok
  repeat' split at hok
  all_goals cases hok
  all_goals refine ⟨?_, ?_⟩ <;> intro hmem <;> first | rfl | simp at hmem

/-- The failing-click turn used by the C5 witness. -/
def c5wR : TurnResult :=
  match c5Result with
  | .ok r => r
  | .error _ => emptyTurn

/-- C5 amended witness: the concrete failed-step turn went through `ACTING`
(and `ERROR`) yet ends in `IDLE`. -/
theorem c5_acting_turn_ends_idle_witness :
    c5wR.agent.state = .IDLE := by
  have h := c5_acting_turn_ends_idle c5Agent timeoutBrowser "click go" c5Raw c5wR (by rfl)
  exact h.2 (by decide)

/-- Dropping to the last 5 after appending one element keeps the last 4 of
the original list plus that element. -/
theorem lastN_five_append_singleton (h : List α) (u : α) :
    lastN 5 (h ++ [u]) = lastN 4 h ++ [u] := by
  unfold lastN
  rw [List.drop_append_eq_append_drop]
  have h1 : (h ++ [u]).length - 5 = h.length - 4 := by simp
  rw [h1]
  have h2 : h.length - 4 - h.length = 0 := by omega
  rw [h2]
  simp

/-- C9 amended: whenever the Reasoner is called, the history part of its
payload is the last 5 entries of the history *after* the current utterance
was appended: the last 4 prior turns followed by the current utterance
message (which the payload also carries separately as the framed user
request); the full history is retained by the orchestrator - the
pre-existing history plus the current user turn is a prefix of the history
after the turn. -/
theorem c9_window_last4_plus_current
    (ag : Agent) (b : Browser) (ui : String) (raw : RawResponse) (r : TurnResult)
    (hok : process_user_input ag b ui raw = .ok r)
    (hcalled : r.analyzeLog ≠ []) :
    r.analyzeLog = [[⟨"system", system_prompt⟩, ⟨"user", "User request: " ++ ui⟩]
        ++ (lastN 4 ag.conversation_history ++ [⟨"user", ui⟩])]
    ∧ (ag.conversation_history ++ [⟨"user", ui⟩]) <+: r.agent.conversation_history := by
  simp only [process_user_input, analyze_intent, analyzeMessages, bind, Except.bind,
    pure, Except.pure] at hok
  repeat' split at hok
  all_goals cases hok
  all_goals try exact absurd rfl hcalled
  all_goals refine ⟨by rw [lastN_five_append_singleton], ?_⟩
  all_goals first
    | exact ⟨[], List.append_nil _⟩
    | exact ⟨_, rfl⟩

/-- The five-prior-turns turn used by the C9 witness. -/
def c9wR : TurnResult :=
  match process_user_input c9Agent okBrowser "again" (.notJson "nah") with
  | .ok r => r
  | .error _ => emptyTurn

/-- C9 amended witness: the concrete window is the last 4 prior turns plus
the current utterance. -/
theorem c9_window_last4_plus_current_witness :
    c9wR.analyzeLog = [[⟨"system", system_prompt⟩, ⟨"user", "User request: again"⟩]
        ++ (lastN 4 c9Hist ++ [⟨"user", "again"⟩])] := by
  have h := c9_window_last4_plus_current c9Agent okBrowser "again" (.notJson "nah") c9wR
    (by rfl) (by decide)
  exact h.1

end CBA
